import Mathlib

/-!
Shallow embedding of the softbuffer Win32 backend (src/win32.rs).

Machine integers are modelled as Nat (u32) and Int (i32) with explicit
range checks where the source performs checked conversions.  OS calls
(BitBlt, ValidateRect, GdiFlush, GetDC) are modelled as an explicit trace
of events, and allocation identity of DIB sections is modelled by a
freshness counter threaded through the operations that allocate.
A Rust panic (unwrap of a missing buffer) is modelled as the Option
value none on the whole result.
-/

namespace Softbuffer

/-- Modelled from the spec: the damage rectangle type of the crate root
(not under src/): x, y are u32 offsets, width and height are NonZeroU32,
here carried as Nat values in u32 range. -/
structure Rect where
  x : Nat
  y : Nat
  width : Nat
  height : Nat
deriving Repr, DecidableEq

/-- Modelled from the spec: the error type of the crate root (not under
src/), restricted to the variants the Win32 backend constructs. -/
inductive SoftBufferError where
  | incompleteWindowHandle : SoftBufferError
  | platformError (msg : Option String) (osError : Option Int) : SoftBufferError
  | sizeOutOfRange (width height : Nat) : SoftBufferError
  | damageOutOfRange (rect : Rect) : SoftBufferError
deriving Repr, DecidableEq

/-- Checked conversion from u32 to i32, as in i32::try_from on a u32:
succeeds exactly when the value is at most i32::MAX. -/
def i32OfU32 (v : Nat) : Option Int :=
  if v ≤ 2147483647 then some (v : Int) else none

/-- Conversion used by resize: i32::try_from followed by NonZeroI32::new;
succeeds exactly when the value is nonzero and at most i32::MAX. -/
def nonZeroI32OfU32 (v : Nat) : Option Int :=
  (i32OfU32 v).bind (fun i => if i = 0 then none else some i)

/-- The off-screen buffer of win32.rs: a compatible DC, a DIB section
bitmap whose pixel store backs the pixels field, the i32 dimensions and
the presented flag.  The id field records which allocation produced this
buffer, standing in for the address identity of the native objects. -/
structure Buffer where
  dc : Int
  bitmap : Int
  id : Nat
  width : Int
  height : Int
  pixels : List Nat
  presented : Bool
deriving Repr, DecidableEq

/-- Buffer::new: allocates a compatible DC and a DIB section of
width * height 32-bit pixels (contents not specified by the source,
modelled as zeros) with the presented flag false.  The fresh argument is
the allocation identity of the new native objects. -/
def Buffer.new (_windowDc : Int) (width height : Int) (fresh : Nat) : Buffer :=
  { dc := Int.ofNat fresh
    bitmap := Int.ofNat fresh
    id := fresh
    width := width
    height := height
    pixels := List.replicate (width.toNat * height.toNat) 0
    presented := false }

/-- Buffer::pixels and Buffer::pixels_mut both return a slice of exactly
width * height elements over the pixel store; over the list model this is
the corresponding take of the backing store. -/
def Buffer.pixelsView (b : Buffer) : List Nat :=
  b.pixels.take (b.width.toNat * b.height.toNat)

/-- GDI calls performed by the backend, recorded as a trace. -/
inductive GdiOp where
  | bitBlt (hdcDest x y cx cy hdcSrc x1 y1 : Int) : GdiOp
  | validateRect (window : Int) : GdiOp
  | gdiFlush : GdiOp
deriving Repr, DecidableEq

/-- OS calls performed during surface creation. -/
inductive OsOp where
  | getDC (hwnd : Int) : OsOp
deriving Repr, DecidableEq

/-- The Win32Impl surface state: the window handle, its device context
and the optional current off-screen buffer. -/
structure Win32Impl where
  window : Int
  dc : Int
  buffer : Option Buffer
deriving Repr, DecidableEq

/-- Win32Impl::new: errors with IncompleteWindowHandle on a null hwnd
before any OS call; otherwise calls GetDC (modelled by the getDC
environment function and recorded in the trace) and errors with
PlatformError carrying the last OS error when it returns null. -/
def Win32Impl.new (getDC : Int → Int) (lastOsError : Int) (hwnd : Int) :
    Except SoftBufferError Win32Impl × List OsOp :=
  if hwnd = 0 then
    (Except.error SoftBufferError.incompleteWindowHandle, [])
  else
    let dc := getDC hwnd
    if dc = 0 then
      (Except.error (SoftBufferError.platformError
        (some "Device Context is null") (some lastOsError)), [OsOp.getDC hwnd])
    else
      (Except.ok { window := hwnd, dc := dc, buffer := none }, [OsOp.getDC hwnd])

/-- Win32Impl::resize: converts both dimensions through i32::try_from and
NonZeroI32::new, failing with SizeOutOfRange carrying the inputs; keeps
the current buffer untouched when it already has these dimensions;
otherwise replaces it with a freshly allocated buffer. -/
def Win32Impl.resize (s : Win32Impl) (width height : Nat) (fresh : Nat) :
    Except SoftBufferError Win32Impl :=
  match nonZeroI32OfU32 width, nonZeroI32OfU32 height with
  | some w, some h =>
    match s.buffer with
    | some buffer =>
      if buffer.width = w ∧ buffer.height = h then
        Except.ok s
      else
        Except.ok { s with buffer := some (Buffer.new s.dc w h fresh) }
    | none =>
      Except.ok { s with buffer := some (Buffer.new s.dc w h fresh) }
  | _, _ => Except.error (SoftBufferError.sizeOutOfRange width height)

/-- Win32Impl::buffer_mut: panics (modelled as none) when no buffer
exists, otherwise returns Ok with the session (the session value itself
is a borrow of the surface and carries no data of its own). -/
def Win32Impl.buffer_mut (s : Win32Impl) : Option (Except SoftBufferError Unit) :=
  match s.buffer with
  | none => none
  | some _ => some (Except.ok ())

/-- Checked conversion of all four rect fields to i32, as in the closure
inside present_with_damage. -/
def rectToI32 (r : Rect) : Option (Int × Int × Int × Int) := do
  let x ← i32OfU32 r.x
  let y ← i32OfU32 r.y
  let w ← i32OfU32 r.width
  let h ← i32OfU32 r.height
  pure (x, y, w, h)

/-- The loop body of present_with_damage: processes rects in order,
emitting one BitBlt per valid rect; stops at the first rect whose fields
do not fit in i32, returning that rect; BitBlts already emitted stay in
the trace. -/
def presentLoop (winDc bufDc : Int) : List Rect → List GdiOp × Option Rect
  | [] => ([], none)
  | r :: rest =>
    match rectToI32 r with
    | none => ([], some r)
    | some (x, y, w, h) =>
      let step := presentLoop winDc bufDc rest
      (GdiOp.bitBlt winDc x y w h bufDc x y :: step.1, step.2)

/-- Win32Impl::present_with_damage: unwraps the buffer (none models the
panic when absent), runs the copy loop; on a range failure returns
DamageOutOfRange carrying the offending rect with the state untouched;
on success validates the window region and sets the presented flag. -/
def Win32Impl.present_with_damage (s : Win32Impl) (damage : List Rect) :
    Option (Except SoftBufferError Unit × Win32Impl × List GdiOp) :=
  match s.buffer with
  | none => none
  | some buffer =>
    match (presentLoop s.dc buffer.dc damage).2 with
    | some r =>
      some (Except.error (SoftBufferError.damageOutOfRange r), s,
        (presentLoop s.dc buffer.dc damage).1)
    | none =>
      some (Except.ok (),
        { s with buffer := some { buffer with presented := true } },
        (presentLoop s.dc buffer.dc damage).1 ++ [GdiOp.validateRect s.window])

/-- Win32Impl::fetch: allocates a temporary buffer of the current
dimensions, copies the window surface into it (the window contents are
the screen environment function, indexed by flat pixel position), flushes
GDI so the copy completes, and returns a dense copy of the temporary
pixel store.  The surface state is read only. -/
def Win32Impl.fetch (s : Win32Impl) (screen : Nat → Nat) (fresh : Nat) :
    Option (Except SoftBufferError (List Nat) × Win32Impl × List GdiOp) :=
  match s.buffer with
  | none => none
  | some buffer =>
    let temp := Buffer.new s.dc buffer.width buffer.height fresh
    let filled := { temp with
      pixels := (List.range (temp.width.toNat * temp.height.toNat)).map screen }
    some (Except.ok filled.pixelsView, s,
      [GdiOp.bitBlt temp.dc 0 0 temp.width temp.height s.dc 0 0, GdiOp.gdiFlush])

/-- BufferImpl::age: 1 when the current buffer has been presented,
otherwise 0. -/
def BufferImpl.age (s : Win32Impl) : Nat :=
  match s.buffer with
  | some buffer => if buffer.presented then 1 else 0
  | none => 0

/-- BufferImpl::present: unwraps the buffer and forwards to
present_with_damage with the single whole-buffer rect, converting the
positive i32 dimensions back to u32. -/
def BufferImpl.present (s : Win32Impl) :
    Option (Except SoftBufferError Unit × Win32Impl × List GdiOp) :=
  match s.buffer with
  | none => none
  | some buffer =>
    s.present_with_damage
      [{ x := 0, y := 0, width := buffer.width.toNat, height := buffer.height.toNat }]

/-- Well-formedness of a surface: the backing pixel store of the current
buffer holds at least width * height pixels (the slice returned by
pixels() is then exactly that long).  Established by every allocation in
the source, which sizes the DIB section from the same dimensions. -/
def Win32Impl.WF (s : Win32Impl) : Prop :=
  ∀ b : Buffer, s.buffer = some b →
    b.width.toNat * b.height.toNat ≤ b.pixels.length

/-- The BitBlt call emitted for one in-range damage rect: same
coordinates on both surfaces, copying from the buffer DC to the window
DC. -/
def rectOp (winDc bufDc : Int) (r : Rect) : GdiOp :=
  GdiOp.bitBlt winDc (r.x : Int) (r.y : Int) (r.width : Int) (r.height : Int)
    bufDc (r.x : Int) (r.y : Int)

/-- Concrete demo buffer of dimensions 3 times 4 used by witnesses. -/
def demoBuffer (presented : Bool) : Buffer :=
  { dc := 11, bitmap := 11, id := 0, width := 3, height := 4
    pixels := List.replicate 12 0, presented := presented }

/-- Concrete demo surface holding the demo buffer. -/
def demoSurface (presented : Bool) : Win32Impl :=
  { window := 7, dc := 5, buffer := some (demoBuffer presented) }

/-- Concrete surface with no buffer yet. -/
def emptySurface : Win32Impl :=
  { window := 7, dc := 5, buffer := none }

lemma i32OfU32_eq (v : Nat) :
    i32OfU32 v = if v ≤ 2147483647 then some (v : Int) else none := rfl

lemma nonZeroI32OfU32_eq (v : Nat) :
    nonZeroI32OfU32 v =
      if v ≠ 0 ∧ v ≤ 2147483647 then some (v : Int) else none := by
  unfold nonZeroI32OfU32 i32OfU32
  by_cases h1 : v ≤ 2147483647 <;> by_cases h2 : v = 0 <;>
    simp [h1, h2, Option.bind]

lemma nonZeroI32OfU32_some {v : Nat} {i : Int}
    (h : nonZeroI32OfU32 v = some i) :
    i = (v : Int) ∧ v ≠ 0 ∧ v ≤ 2147483647 := by
  rw [nonZeroI32OfU32_eq] at h
  split at h
  · exact ⟨(Option.some_inj.mp h).symm, by assumption⟩
  · cases h

lemma rectToI32_eq (r : Rect) :
    rectToI32 r =
      if r.x ≤ 2147483647 ∧ r.y ≤ 2147483647 ∧
          r.width ≤ 2147483647 ∧ r.height ≤ 2147483647 then
        some ((r.x : Int), (r.y : Int), (r.width : Int), (r.height : Int))
      else none := by
  unfold rectToI32 i32OfU32
  by_cases h1 : r.x ≤ 2147483647 <;> by_cases h2 : r.y ≤ 2147483647 <;>
    by_cases h3 : r.width ≤ 2147483647 <;>
    by_cases h4 : r.height ≤ 2147483647 <;>
    simp [h1, h2, h3, h4, Option.bind]

lemma rectToI32_isSome_eq {r : Rect} (h : (rectToI32 r).isSome) :
    rectToI32 r =
      some ((r.x : Int), (r.y : Int), (r.width : Int), (r.height : Int)) := by
  rw [rectToI32_eq] at h ⊢
  split
  · rfl
  · rw [if_neg (by assumption)] at h
    cases h

lemma presentLoop_append_valid (winDc bufDc : Int) (pre rest : List Rect)
    (hpre : ∀ r ∈ pre, (rectToI32 r).isSome) :
    presentLoop winDc bufDc (pre ++ rest) =
      (pre.map (rectOp winDc bufDc) ++ (presentLoop winDc bufDc rest).1,
       (presentLoop winDc bufDc rest).2) := by
  induction pre with
  | nil => simp [presentLoop]
  | cons r pre ih =>
    have hr := rectToI32_isSome_eq (hpre r (by simp))
    have hrest : ∀ q ∈ pre, (rectToI32 q).isSome := fun q hq => hpre q (by simp [hq])
    simp [presentLoop, hr, ih hrest, rectOp]

lemma resize_ok_cases {s : Win32Impl} {w h fresh : Nat} {s' : Win32Impl}
    (hres : s.resize w h fresh = Except.ok s') :
    (s' = s ∧ ∃ b : Buffer, s.buffer = some b ∧
        b.width = (w : Int) ∧ b.height = (h : Int)) ∨
    s' = { s with buffer := some (Buffer.new s.dc (w : Int) (h : Int) fresh) } := by
  unfold Win32Impl.resize at hres
  split at hres
  case _ w' h' hw hh =>
    obtain ⟨hw', -, -⟩ := nonZeroI32OfU32_some hw
    obtain ⟨hh', -, -⟩ := nonZeroI32OfU32_some hh
    subst hw'
    subst hh'
    split at hres
    case _ b hb =>
      split at hres
      case isTrue hcond =>
        exact Or.inl ⟨(Except.ok.inj hres).symm, b, hb, hcond⟩
      case isFalse hcond =>
        exact Or.inr (Except.ok.inj hres).symm
    case _ hb =>
      exact Or.inr (Except.ok.inj hres).symm
  case _ =>
    cases hres

/-- C3: when the surface already holds a buffer of exactly the requested
dimensions, resize is a no-op returning success with the whole surface
state, hence the buffer instance with its identity, contents and
presented flag, unchanged; no new allocation is used whatever freshness
is available. -/
theorem resize_same_dims_noop (s : Win32Impl) (b : Buffer) (w h fresh : Nat)
    (hb : s.buffer = some b)
    (hw : nonZeroI32OfU32 w = some b.width)
    (hh : nonZeroI32OfU32 h = some b.height) :
    s.resize w h fresh = Except.ok s := by
  unfold Win32Impl.resize
  rw [hw, hh, hb]
  simp

/-- Witness for C3 at the concrete demo surface with dimensions 3 and 4. -/
theorem resize_same_dims_noop_witness :
    (demoSurface true).buffer = some (demoBuffer true) ∧
    nonZeroI32OfU32 3 = some (demoBuffer true).width ∧
    nonZeroI32OfU32 4 = some (demoBuffer true).height ∧
    (demoSurface true).resize 3 4 9 = Except.ok (demoSurface true) := by
  refine ⟨rfl, by decide, by decide, ?_⟩
  exact resize_same_dims_noop (demoSurface true) (demoBuffer true) 3 4 9 rfl
    (by decide) (by decide)

/-- C5: resize fails with SizeOutOfRange carrying the offending width and
height whenever either dimension is zero or above the i32 maximum; the
error return means no buffer is allocated and the surface state that the
caller holds is untouched. -/
theorem resize_out_of_range (s : Win32Impl) (w h fresh : Nat)
    (hbad : w = 0 ∨ h = 0 ∨ 2147483647 < w ∨ 2147483647 < h) :
    s.resize w h fresh = Except.error (SoftBufferError.sizeOutOfRange w h) := by
  unfold Win32Impl.resize
  rw [nonZeroI32OfU32_eq, nonZeroI32OfU32_eq]
  rcases hbad with h0 | h0 | h0 | h0 <;>
    simp [h0, Nat.not_le.mpr, Nat.lt_irrefl]

/-- Witness for C5 at width 0 against the concrete demo surface. -/
theorem resize_out_of_range_witness :
    (0 = 0 ∨ (5 : Nat) = 0 ∨ 2147483647 < 0 ∨ 2147483647 < 5) ∧
    (demoSurface true).resize 0 5 9 =
      Except.error (SoftBufferError.sizeOutOfRange 0 5) :=
  ⟨Or.inl rfl,
   resize_out_of_range (demoSurface true) 0 5 9 (Or.inl rfl)⟩

/-- C6: present on a surface holding a buffer of dimensions w, h is the
very same computation, result, state change and GDI trace, as
present_with_damage on the single rect x 0, y 0, width w, height h
covering the whole buffer. -/
theorem present_refines_present_with_damage (s : Win32Impl) (b : Buffer)
    (hb : s.buffer = some b) :
    BufferImpl.present s =
      s.present_with_damage
        [{ x := 0, y := 0, width := b.width.toNat, height := b.height.toNat }] := by
  unfold BufferImpl.present
  rw [hb]

/-- Witness for C6 at the concrete demo surface. -/
theorem present_refines_present_with_damage_witness :
    (demoSurface false).buffer = some (demoBuffer false) ∧
    BufferImpl.present (demoSurface false) =
      (demoSurface false).present_with_damage
        [{ x := 0, y := 0, width := 3, height := 4 }] :=
  ⟨rfl,
   present_refines_present_with_damage (demoSurface false) (demoBuffer false) rfl⟩

/-- C8: buffer_mut before any successful resize, that is with no buffer,
panics (modelled as none) rather than returning an error; with a buffer
present it always returns Ok with a session, so its error branch never
runs. -/
theorem buffer_mut_contract (s : Win32Impl) :
    (s.buffer = none → s.buffer_mut = none) ∧
    (∀ b : Buffer, s.buffer = some b → s.buffer_mut = some (Except.ok ())) := by
  constructor
  · intro hnone
    unfold Win32Impl.buffer_mut
    rw [hnone]
  · intro b hb
    unfold Win32Impl.buffer_mut
    rw [hb]

/-- Witness for C8 on the empty surface and on the demo surface. -/
theorem buffer_mut_contract_witness :
    emptySurface.buffer_mut = none ∧
    (demoSurface false).buffer_mut = some (Except.ok ()) :=
  ⟨(buffer_mut_contract emptySurface).1 rfl,
   (buffer_mut_contract (demoSurface false)).2 (demoBuffer false) rfl⟩

/-- C10: present_with_damage on an empty rect list performs no BitBlt;
it still validates the window region, marks the current buffer presented
and returns success, and a subsequent age on the resulting state is 1. -/
theorem present_with_damage_empty (s : Win32Impl) (b : Buffer)
    (hb : s.buffer = some b) :
    s.present_with_damage [] =
      some (Except.ok (), { s with buffer := some { b with presented := true } },
        [GdiOp.validateRect s.window]) ∧
    BufferImpl.age { s with buffer := some { b with presented := true } } = 1 := by
  constructor
  · unfold Win32Impl.present_with_damage
    rw [hb]
    simp [presentLoop]
  · simp [BufferImpl.age]

/-- Witness for C10 at the concrete demo surface, not yet presented. -/
theorem present_with_damage_empty_witness :
    (demoSurface false).present_with_damage [] =
      some (Except.ok (), demoSurface true, [GdiOp.validateRect 7]) ∧
    BufferImpl.age (demoSurface true) = 1 :=
  (present_with_damage_empty (demoSurface false) (demoBuffer false) rfl)

/-- C1: when the damage list is a run of in-range rects followed by a
rect with a field outside the signed 32-bit domain, present_with_damage
returns DamageOutOfRange carrying that offending rect, the trace shows
exactly the BitBlt of each earlier valid rect already committed in
order, the surface state is returned untouched so the presented flag is
not set, and age stays 0 when it was 0 before the call. -/
theorem present_with_damage_out_of_range (s : Win32Impl) (b : Buffer)
    (pre rest : List Rect) (bad : Rect)
    (hb : s.buffer = some b)
    (hpre : ∀ r ∈ pre, (rectToI32 r).isSome)
    (hbad : rectToI32 bad = none) :
    s.present_with_damage (pre ++ bad :: rest) =
      some (Except.error (SoftBufferError.damageOutOfRange bad), s,
        pre.map (rectOp s.dc b.dc)) ∧
    (b.presented = false → BufferImpl.age s = 0) := by
  constructor
  · unfold Win32Impl.present_with_damage
    rw [hb]
    have hloop : presentLoop s.dc b.dc (pre ++ bad :: rest) =
        (List.map (rectOp s.dc b.dc) pre, some bad) := by
      rw [presentLoop_append_valid s.dc b.dc pre (bad :: rest) hpre]
      simp [presentLoop, hbad]
    simp [hloop]
  · intro hp
    simp [BufferImpl.age, hb, hp]

/-- Witness for C1: one valid rect then a rect with x equal to 2 ^ 31. -/
theorem present_with_damage_out_of_range_witness :
    rectToI32 { x := 2147483648, y := 0, width := 1, height := 1 } = none ∧
    (demoSurface false).present_with_damage
        [{ x := 0, y := 0, width := 1, height := 1 },
         { x := 2147483648, y := 0, width := 1, height := 1 }] =
      some (Except.error (SoftBufferError.damageOutOfRange
          { x := 2147483648, y := 0, width := 1, height := 1 }),
        demoSurface false,
        List.map (rectOp 5 11) [{ x := 0, y := 0, width := 1, height := 1 }]) ∧
    BufferImpl.age (demoSurface false) = 0 := by
  refine ⟨by decide, ?_, ?_⟩
  · exact (present_with_damage_out_of_range (demoSurface false) (demoBuffer false)
      [{ x := 0, y := 0, width := 1, height := 1 }] []
      { x := 2147483648, y := 0, width := 1, height := 1 }
      rfl (by decide) (by decide)).1
  · exact (present_with_damage_out_of_range (demoSurface false) (demoBuffer false)
      [{ x := 0, y := 0, width := 1, height := 1 }] []
      { x := 2147483648, y := 0, width := 1, height := 1 }
      rfl (by decide) (by decide)).2 rfl

/-- C2 counterexample: the claim says age is 0 after any resize, but a
resize to the identical dimensions of an already presented buffer is a
no-op that keeps the presented flag, so age stays 1: witnessed by the
presented 3 by 4 demo surface resized to 3 by 4. -/
theorem age_after_resize_counterexample :
    ¬ (∀ (s : Win32Impl) (w h fresh : Nat) (s' : Win32Impl),
        s.resize w h fresh = Except.ok s' → BufferImpl.age s' = 0) := by
  intro hall
  have h1 : (demoSurface true).resize 3 4 9 = Except.ok (demoSurface true) := rfl
  exact absurd (hall (demoSurface true) 3 4 9 (demoSurface true) h1) (by decide)

/-- C2 amended: age is 0 after a resize that establishes the first
buffer or changes dimensions, 1 after any successful present, is
preserved by an identical-dimension resize, which is a no-op, and in
general equals 1 exactly when the current buffer carries a true
presented flag. -/
theorem age_lifecycle :
    (∀ (s : Win32Impl) (w h fresh : Nat) (s' : Win32Impl),
        s.buffer = none → s.resize w h fresh = Except.ok s' →
        BufferImpl.age s' = 0) ∧
    (∀ (s : Win32Impl) (b : Buffer) (w h fresh : Nat) (s' : Win32Impl),
        s.buffer = some b →
        ¬ (b.width = (w : Int) ∧ b.height = (h : Int)) →
        s.resize w h fresh = Except.ok s' → BufferImpl.age s' = 0) ∧
    (∀ (s : Win32Impl) (damage : List Rect) (s' : Win32Impl) (ops : List GdiOp),
        s.present_with_damage damage = some (Except.ok (), s', ops) →
        BufferImpl.age s' = 1) ∧
    (∀ (s : Win32Impl) (b : Buffer) (w h fresh : Nat),
        s.buffer = some b →
        nonZeroI32OfU32 w = some b.width → nonZeroI32OfU32 h = some b.height →
        s.resize w h fresh = Except.ok s) ∧
    (∀ s : Win32Impl,
        BufferImpl.age s = 1 ↔
          ∃ b : Buffer, s.buffer = some b ∧ b.presented = true) := by
  refine ⟨?_, ?_, ?_, ?_, ?_⟩
  · intro s w h fresh s' hnone hres
    rcases resize_ok_cases hres with ⟨-, b, hb, -⟩ | hs'
    · rw [hnone] at hb; cases hb
    · subst hs'
      simp [BufferImpl.age, Buffer.new]
  · intro s b w h fresh s' hb hdiff hres
    rcases resize_ok_cases hres with ⟨-, b', hb', hbw, hbh⟩ | hs'
    · rw [hb] at hb'
      cases hb'
      exact absurd ⟨hbw, hbh⟩ hdiff
    · subst hs'
      simp [BufferImpl.age, Buffer.new]
  · intro s damage s' ops hres
    unfold Win32Impl.present_with_damage at hres
    rcases hbuf : s.buffer with _ | b
    · rw [hbuf] at hres
      simp at hres
    · rw [hbuf] at hres
      replace hres :
          (match (presentLoop s.dc b.dc damage).2 with
            | some r => some (Except.error (SoftBufferError.damageOutOfRange r), s,
                (presentLoop s.dc b.dc damage).1)
            | none => some (Except.ok (),
                { s with buffer := some { b with presented := true } },
                (presentLoop s.dc b.dc damage).1 ++ [GdiOp.validateRect s.window])) =
          some (Except.ok (), s', ops) := hres
      rcases hstep : (presentLoop s.dc b.dc damage).2 with _ | r <;>
        rw [hstep] at hres
      · simp only [Option.some_inj, Prod.mk.injEq] at hres
        obtain ⟨-, hs', -⟩ := hres
        simp [BufferImpl.age, ← hs']
      · simp at hres
  · intro s b w h fresh hb hw hh
    unfold Win32Impl.resize
    rw [hw, hh, hb]
    simp
  · intro s
    unfold BufferImpl.age
    rcases hbuf : s.buffer with _ | b
    · simp
    · rcases hp : b.presented with _ | _ <;> simp [hp]

/-- Witness for the amended C2: the four transitions and the flag
characterisation at concrete surfaces. -/
theorem age_lifecycle_witness :
    BufferImpl.age { window := 7, dc := 5, buffer := some (Buffer.new 5 3 4 9) } = 0 ∧
    BufferImpl.age { window := 7, dc := 5, buffer := some (Buffer.new 5 5 6 9) } = 0 ∧
    BufferImpl.age (demoSurface true) = 1 ∧
    (demoSurface true).resize 3 4 9 = Except.ok (demoSurface true) ∧
    (BufferImpl.age (demoSurface false) = 1 ↔
      ∃ b : Buffer, (demoSurface false).buffer = some b ∧ b.presented = true) := by
  refine ⟨?_, ?_, ?_, ?_, ?_⟩
  · exact age_lifecycle.1 emptySurface 3 4 9 _ rfl rfl
  · exact age_lifecycle.2.1 (demoSurface true) (demoBuffer true) 5 6 9 _ rfl
      (by decide) rfl
  · exact age_lifecycle.2.2.1 (demoSurface false) [] (demoSurface true)
      [GdiOp.validateRect 7] rfl
  · exact age_lifecycle.2.2.2.1 (demoSurface true) (demoBuffer true) 3 4 9 rfl
      (by decide) (by decide)
  · exact age_lifecycle.2.2.2.2 (demoSurface false)

/-- C4: on a surface whose backing store is at least as large as its
recorded dimensions (true of every buffer the source allocates), a
successful resize to width w and height h leaves a current buffer whose
pixels slice, the view returned by both pixels() and pixels_mut(), has
length exactly w times h. -/
theorem resize_pixels_len (s : Win32Impl) (w h fresh : Nat) (s' : Win32Impl)
    (b : Buffer) (hWF : s.WF) (hres : s.resize w h fresh = Except.ok s')
    (hb : s'.buffer = some b) :
    b.pixelsView.length = w * h := by
  rcases resize_ok_cases hres with ⟨hs', b', hb', hbw, hbh⟩ | hs'
  · subst hs'
    rw [hb] at hb'
    cases hb'
    have hle := hWF b hb
    simp only [Buffer.pixelsView, List.length_take, hbw, hbh,
      Int.toNat_natCast] at hle ⊢
    omega
  · subst hs'
    simp only [Option.some_inj] at hb
    subst hb
    simp [Buffer.pixelsView, Buffer.new, List.length_take, Int.toNat_natCast]

/-- Witness for C4: resizing the empty surface to 3 by 4 yields a pixel
view of length 12. -/
theorem resize_pixels_len_witness :
    emptySurface.WF ∧
    emptySurface.resize 3 4 9 = Except.ok
      { window := 7, dc := 5, buffer := some (Buffer.new 5 3 4 9) } ∧
    (Buffer.new 5 3 4 9).pixelsView.length = 3 * 4 := by
  have hwf : emptySurface.WF := by
    intro b hb
    simp [emptySurface] at hb
  refine ⟨hwf, rfl, ?_⟩
  exact resize_pixels_len emptySurface 3 4 9
    { window := 7, dc := 5, buffer := some (Buffer.new 5 3 4 9) }
    (Buffer.new 5 3 4 9) hwf rfl rfl

/-- C7: surface creation with a null window reference fails with
IncompleteWindowHandle and an empty OS-call trace; with a non-null
window whose device context acquisition returns null it fails with
PlatformError carrying the last OS error, the GetDC call being on the
trace; on success the surface records the window and device context and
starts with no buffer. -/
theorem new_contract (getDC : Int → Int) (lastOsError hwnd : Int) :
    (hwnd = 0 → Win32Impl.new getDC lastOsError hwnd =
      (Except.error SoftBufferError.incompleteWindowHandle, [])) ∧
    (hwnd ≠ 0 → getDC hwnd = 0 → Win32Impl.new getDC lastOsError hwnd =
      (Except.error (SoftBufferError.platformError
        (some "Device Context is null") (some lastOsError)),
       [OsOp.getDC hwnd])) ∧
    (hwnd ≠ 0 → getDC hwnd ≠ 0 → Win32Impl.new getDC lastOsError hwnd =
      (Except.ok { window := hwnd, dc := getDC hwnd, buffer := none },
       [OsOp.getDC hwnd])) := by
  refine ⟨?_, ?_, ?_⟩
  · intro h0
    unfold Win32Impl.new
    simp [h0]
  · intro h0 hdc
    unfold Win32Impl.new
    simp [h0, hdc]
  · intro h0 hdc
    unfold Win32Impl.new
    simp [h0, hdc]

/-- Witness for C7: the three creation paths at concrete handles and
environments. -/
theorem new_contract_witness :
    Win32Impl.new (fun _ => 0) 3 0 =
      (Except.error SoftBufferError.incompleteWindowHandle, []) ∧
    Win32Impl.new (fun _ => 0) 3 1 =
      (Except.error (SoftBufferError.platformError
        (some "Device Context is null") (some 3)), [OsOp.getDC 1]) ∧
    Win32Impl.new (fun _ => 9) 3 1 =
      (Except.ok { window := 1, dc := 9, buffer := none }, [OsOp.getDC 1]) :=
  ⟨(new_contract (fun _ => 0) 3 0).1 rfl,
   (new_contract (fun _ => 0) 3 1).2.1 (by decide) rfl,
   (new_contract (fun _ => 9) 3 1).2.2 (by decide) (by decide)⟩

/-- C9: fetch on a surface holding a buffer is a pure read of the
surface state: the returned triple carries the state unchanged, so the
presented flag, the buffer identity and its pixel contents are intact;
the trace is one BitBlt from the window device context into a freshly
allocated temporary buffer followed by a GdiFlush; and the returned
dense pixel vector has exactly the dimensions of the current buffer. -/
theorem fetch_pure_read (s : Win32Impl) (b : Buffer) (screen : Nat → Nat)
    (fresh : Nat) (hb : s.buffer = some b) :
    ∃ px : List Nat,
      s.fetch screen fresh =
        some (Except.ok px, s,
          [GdiOp.bitBlt (Int.ofNat fresh) 0 0 b.width b.height s.dc 0 0,
           GdiOp.gdiFlush]) ∧
      px.length = b.width.toNat * b.height.toNat := by
  refine ⟨({ Buffer.new s.dc b.width b.height fresh with
      pixels := (List.range ((Buffer.new s.dc b.width b.height fresh).width.toNat *
        (Buffer.new s.dc b.width b.height fresh).height.toNat)).map screen } :
      Buffer).pixelsView, ?_, ?_⟩
  · unfold Win32Impl.fetch
    rw [hb]
    rfl
  · simp [Buffer.pixelsView, Buffer.new, List.length_take, List.length_map,
      List.length_range, Nat.min_self]

/-- Witness for C9 at the presented demo surface with an identity screen
environment. -/
theorem fetch_pure_read_witness :
    ∃ px : List Nat,
      (demoSurface true).fetch (fun i => i) 9 =
        some (Except.ok px, demoSurface true,
          [GdiOp.bitBlt (Int.ofNat 9) 0 0 3 4 5 0 0, GdiOp.gdiFlush]) ∧
      px.length = 12 :=
  fetch_pure_read (demoSurface true) (demoBuffer true) (fun i => i) 9 rfl

end Softbuffer
